import Mathlib

/-!
Shallow embedding of the emotion-streaming frontend client
(`src/frontend/main.js`) and verification of its specification claims.

The client owns a WebSocket connection with bounded exponential-backoff
reconnection, a rate gate limiting outbound sends to one per 200 ms, a
region extractor that clamps a detected bounding box to the canvas, and an
inbound handler that parses classification messages and updates display
state.  JS numbers appearing as raw pixel coordinates are modelled as `ℚ`
(the claims quantify over *finite* raw rectangles, and every `ℚ` is
finite); timestamps and pixel coordinates after `Math.floor` are `ℤ`.
-/

namespace EmotionClient

/-- `WebSocket.readyState` values. -/
inductive ReadyState
  | connecting
  | opened
  | closing
  | closed
deriving DecidableEq, Repr

/-- The observable part of a browser WebSocket object. -/
structure Socket where
  readyState : ReadyState
deriving DecidableEq, Repr

/-- Module-scope mutable state of `main.js` (lines 7-15), plus a
`socketsCreated` counter recording each `new WebSocket(...)` construction
so that "opens no new link" is expressible. -/
structure ClientState where
  socket : Option Socket
  reconnectAttempt : ℕ
  lastSendTime : ℤ
  lastEmotion : String
  resultDiv : String
  socketsCreated : ℕ
deriving DecidableEq, Repr

/-- `maxReconnectAttempts = 5` (line 9). -/
def maxReconnectAttempts : ℕ := 5

/-- `baseReconnectDelay = 1000` (line 10). -/
def baseReconnectDelay : ℤ := 1000

/-- `sendInterval = 200` (line 14). -/
def sendInterval : ℤ := 200

/-- Initial module state: `socket = null`, `reconnectAttempt = 0`,
`lastSendTime = 0`, `lastEmotion = ''` (lines 7-15). -/
def initState : ClientState :=
  { socket := none
    reconnectAttempt := 0
    lastSendTime := 0
    lastEmotion := ""
    resultDiv := ""
    socketsCreated := 0 }

/-- `connectWebSocket` (lines 17-23): no-op when a socket exists in
CONNECTING or OPEN state; otherwise constructs a new WebSocket (which
starts in CONNECTING state). -/
def connectWebSocket (s : ClientState) : ClientState :=
  match s.socket with
  | some sk =>
    if sk.readyState = ReadyState.connecting ∨ sk.readyState = ReadyState.opened then
      s
    else
      { s with socket := some ⟨ReadyState.connecting⟩
               socketsCreated := s.socketsCreated + 1 }
  | none =>
      { s with socket := some ⟨ReadyState.connecting⟩
               socketsCreated := s.socketsCreated + 1 }

/-- The reconnect delay computed on link closure (line 35):
`Math.min(1000 * Math.pow(2, reconnectAttempt), 10000)`. -/
def reconnectDelay (attempt : ℕ) : ℤ :=
  min (1000 * 2 ^ attempt) 10000

/-- The `socket.onclose` handler's reconnect logic (lines 34-46): if the
current attempt count is below the maximum, schedule one deferred
`connectWebSocket` after `reconnectDelay attempt` and increment the
counter; otherwise schedule nothing.  Returns the new counter and the
list of delays of the connect calls scheduled by this invocation. -/
def oncloseStep (attempt : ℕ) : ℕ × List ℤ :=
  if attempt < maxReconnectAttempts then
    (attempt + 1, [reconnectDelay attempt])
  else
    (attempt, [])

/-- Connection lifecycle events seen by the state machine's handlers. -/
inductive CsmEvent
  | evOpen
  | evClose
deriving DecidableEq, Repr

/-- Effect of one lifecycle event on the retry counter: `socket.onopen`
resets it to 0 (line 27); `socket.onclose` applies `oncloseStep`. -/
def stepAttempt (attempt : ℕ) : CsmEvent → ℕ
  | CsmEvent.evOpen => 0
  | CsmEvent.evClose => (oncloseStep attempt).1

/-- Retry counter after a sequence of lifecycle events from a fresh start. -/
def attemptAfter (evs : List CsmEvent) : ℕ :=
  evs.foldl stepAttempt 0

/-- Delays of the connect calls that one `onclose` invocation schedules. -/
def oncloseSchedules (attempt : ℕ) : List ℤ :=
  (oncloseStep attempt).2

/-- A MediaPipe bounding box in normalized fractions of the frame. -/
structure BoundingBox where
  xMin : ℚ
  yMin : ℚ
  width : ℚ
  height : ℚ
deriving DecidableEq, Repr

/-- The raw rectangle as the code computes it (lines 139-142): note that
the origin is computed from `box.width` and `box.height`, exactly as
written in the source — `rawX = box.width * canvas.width`,
`rawY = box.height * canvas.height`. -/
def rawRect (box : BoundingBox) (canvasW canvasH : ℚ) : ℚ × ℚ × ℚ × ℚ :=
  (box.width * canvasW, box.height * canvasH, box.width * canvasW, box.height * canvasH)

/-- The raw origin as the spec prescribes it, for comparison with
`rawRect`: bounding-box *position* fractions times frame dimensions,
`rawX = box.xMin * canvas.width`, `rawY = box.yMin * canvas.height`. -/
def rawOriginSpec (box : BoundingBox) (canvasW canvasH : ℚ) : ℚ × ℚ :=
  (box.xMin * canvasW, box.yMin * canvasH)

/-- A clamped integer pixel rectangle (the ExtractedRegion). -/
structure Region where
  x : ℤ
  y : ℤ
  w : ℤ
  h : ℤ
deriving DecidableEq, Repr

/-- The clamping step of the region extractor (lines 152-160):
`x = max(0, floor(rawX))`, `y = max(0, floor(rawY))`,
`w = max(1, min(canvasW - x, floor(rawW)))`,
`h = max(1, min(canvasH - y, floor(rawH)))`; then the degenerate-region
check `if (w <= 0 || h <= 0) return` yields no region.  The source's
finiteness check (line 146) is vacuous here because every `ℚ` is finite. -/
def clampRegion (canvasW canvasH : ℤ) (rawX rawY rawW rawH : ℚ) : Option Region :=
  let x := max 0 ⌊rawX⌋
  let y := max 0 ⌊rawY⌋
  let w := max 1 (min (canvasW - x) ⌊rawW⌋)
  let h := max 1 (min (canvasH - y) ⌊rawH⌋)
  if w ≤ 0 ∨ h ≤ 0 then none else some ⟨x, y, w, h⟩

/-- The rate gate (lines 175-181): admit when
`now - lastSendTime >= sendInterval`, updating `lastSendTime` to `now`;
otherwise deny, leaving `lastSendTime` unchanged.  Returns the decision
and the new `lastSendTime`. -/
def tryAdmit (lastSendTime now : ℤ) : Bool × ℤ :=
  if sendInterval ≤ now - lastSendTime then (true, now) else (false, lastSendTime)

/-- Timestamps admitted by the rate gate over a sequence of send
attempts, threading `lastSendTime` through `tryAdmit`. -/
def admittedTimes (lastSendTime : ℤ) : List ℤ → List ℤ
  | [] => []
  | t :: ts =>
    let r := tryAdmit lastSendTime t
    if r.1 then t :: admittedTimes r.2 ts else admittedTimes r.2 ts

/-- Outcome of one pass through the send path of the detection callback. -/
inductive SendOutcome
  | sent
  | rateDenied
  | notOpen
  | sendError
deriving DecidableEq, Repr

/-- The send path of the detection callback (lines 174-195): when the
socket exists and is OPEN, the rate gate decides; on admit the payload is
sent and `lastSendTime := now` (the update is skipped when
`socket.send` throws, in which case the socket is closed — readyState
CLOSING — and `connectWebSocket` runs).  When the socket is missing or
not OPEN the attempt is rejected without throwing; `connectWebSocket` is
additionally called when the socket is `null` or CLOSED. -/
def attemptSend (s : ClientState) (now : ℤ) (sendThrows : Bool) :
    ClientState × SendOutcome :=
  match s.socket with
  | some sk =>
    if sk.readyState = ReadyState.opened then
      if sendInterval ≤ now - s.lastSendTime then
        if sendThrows then
          (connectWebSocket { s with socket := some ⟨ReadyState.closing⟩ },
           SendOutcome.sendError)
        else
          ({ s with lastSendTime := now }, SendOutcome.sent)
      else
        (s, SendOutcome.rateDenied)
    else if sk.readyState = ReadyState.closed then
      (connectWebSocket s, SendOutcome.notOpen)
    else
      (s, SendOutcome.notOpen)
  | none => (connectWebSocket s, SendOutcome.notOpen)

/-- A successfully parsed inbound message.  Absent JSON fields read as
`undefined`; `emotion` is modelled as an optional string (`none` renders
as `"undefined"` under string interpolation) and `confidence` as an
optional rational (`none` stands for any value whose coercion to a
number is NaN, i.e. an absent or non-numeric field, so that
`confidence * 100` renders as `"NaN"`). -/
structure InMsg where
  emotion : Option String
  confidence : Option ℚ
  error : Option String
deriving DecidableEq, Repr

/-- JS truthiness of the optional `error` string field: `undefined` and
the empty string are falsy. -/
def isTruthy : Option String → Bool
  | none => false
  | some str => decide (str ≠ "")

/-- `Number.prototype.toFixed(1)`: round to the nearest multiple of
1/10, ties toward the larger candidate (ECMAScript picks the larger `n`
when two are equidistant), then render with one digit after the point. -/
def toFixed1 (q : ℚ) : String :=
  let n : ℤ := ⌊q * 10 + 1 / 2⌋
  (if n < 0 then "-" else "") ++ toString (n.natAbs / 10) ++ "." ++ toString (n.natAbs % 10)

/-- The template literal of line 62:
`${data.emotion} (${(data.confidence * 100).toFixed(1)}%)`. -/
def formatEmotion (m : InMsg) : String :=
  (match m.emotion with
   | some str => str
   | none => "undefined") ++ " (" ++
  (match m.confidence with
   | some c => toFixed1 (c * 100)
   | none => "NaN") ++ "%)"

/-- The `socket.onmessage` handler (lines 54-69).  `parsed` is the result
of `JSON.parse` on the payload: `none` when parsing throws (the catch
branch only logs).  A truthy `error` field drives a transient status
message; otherwise `lastEmotion` is overwritten with the formatted
string. -/
def onmessage (s : ClientState) (parsed : Option InMsg) : ClientState :=
  match parsed with
  | none => s
  | some m =>
    if isTruthy m.error then
      { s with resultDiv :=
          "<div style=\"color: orange;\">处理错误: " ++
          (match m.error with
           | some str => str
           | none => "undefined") ++ "</div>" }
    else
      let le := formatEmotion m
      { s with lastEmotion := le, resultDiv := "Emotion: " ++ le }

/-! Helper lemmas shared by the claim theorems. -/

/-- `connectWebSocket` never touches the rate gate's `lastSendTime`. -/
theorem connectWebSocket_lastSendTime (s : ClientState) :
    (connectWebSocket s).lastSendTime = s.lastSendTime := by
  unfold connectWebSocket
  split
  · split <;> rfl
  · rfl

/-- The clamping step always produces the explicit clamped rectangle:
the degenerate-region branch is never taken. -/
theorem clampRegion_eq (cw ch : ℤ) (rx ry rw rh : ℚ) :
    clampRegion cw ch rx ry rw rh =
      some ⟨max 0 ⌊rx⌋, max 0 ⌊ry⌋,
            max 1 (min (cw - max 0 ⌊rx⌋) ⌊rw⌋),
            max 1 (min (ch - max 0 ⌊ry⌋) ⌊rh⌋)⟩ := by
  unfold clampRegion
  rw [if_neg]
  push_neg
  constructor
  · have := le_max_left (1 : ℤ) (min (cw - max 0 ⌊rx⌋) ⌊rw⌋); omega
  · have := le_max_left (1 : ℤ) (min (ch - max 0 ⌊ry⌋) ⌊rh⌋); omega

/-- Along any attempt sequence, the timestamps the rate gate admits are
spaced at least `sendInterval` apart, and the first admitted timestamp is
at least `sendInterval` after the incoming `lastSendTime`. -/
theorem admittedTimes_spacing (ts : List ℤ) : ∀ last : ℤ,
    List.Chain' (fun a b => sendInterval ≤ b - a) (admittedTimes last ts) ∧
    ∀ t ∈ (admittedTimes last ts).head?, sendInterval ≤ t - last := by
  induction ts with
  | nil => intro last; exact ⟨List.chain'_nil, by simp [admittedTimes]⟩
  | cons t ts ih =>
    intro last
    by_cases h : sendInterval ≤ t - last
    · have hadm : admittedTimes last (t :: ts) = t :: admittedTimes t ts := by
        simp [admittedTimes, tryAdmit, h]
      rw [hadm]
      refine ⟨List.chain'_cons'.mpr ⟨(ih t).2, (ih t).1⟩, ?_⟩
      intro u hu
      simp only [List.head?_cons, Option.mem_def, Option.some.injEq] at hu
      exact hu ▸ h
    · have hadm : admittedTimes last (t :: ts) = admittedTimes last ts := by
        simp [admittedTimes, tryAdmit, h]
      rw [hadm]
      exact ih last

/-! Claim theorems. -/

/-- Claim C1 counterexample: at `frameWidth = 640`, `frameHeight = 480`
and raw rectangle `(-10, 500, 100, 50)` — the claim's own example — the
clamp produces the region `(x = 0, y = 500, w = 100, h = 1)`, whose
`y + h = 501` exceeds the frame height, refuting the claimed invariant
`y + h ≤ frameHeight` (and the claimed `y`-clamping in the example). -/
theorem c1_clamp_example_violates_bounds :
    clampRegion 640 480 (-10) 500 100 50 = some ⟨0, 500, 100, 1⟩ ∧
    ¬ ((500 : ℤ) + 1 ≤ 480) := by
  exact ⟨by decide, by decide⟩

/-- Claim C1 (amended): every region produced by the clamping step
satisfies `x ≥ 0`, `y ≥ 0`, `w ≥ 1` and `h ≥ 1`; the containment bounds
hold only conditionally — `x + w ≤ frameWidth` whenever `x < frameWidth`,
and `y + h ≤ frameHeight` whenever `y < frameHeight` (when the clamped
origin already lies at or beyond the frame edge, the forced minimum size
of 1 pushes the region outside the frame, as the raw rectangle
`(-10, 500, 100, 50)` at 640×480 shows). -/
theorem c1_clamped_region_invariants (cw ch : ℤ) (rx ry rw rh : ℚ) (r : Region)
    (hr : clampRegion cw ch rx ry rw rh = some r) :
    0 ≤ r.x ∧ 0 ≤ r.y ∧ 1 ≤ r.w ∧ 1 ≤ r.h ∧
    (r.x < cw → r.x + r.w ≤ cw) ∧ (r.y < ch → r.y + r.h ≤ ch) := by
  rw [clampRegion_eq, Option.some.injEq] at hr
  subst hr
  dsimp only
  refine ⟨le_max_left 0 _, le_max_left 0 _, le_max_left 1 _, le_max_left 1 _, ?_, ?_⟩
  · intro hx
    have h1 : (1 : ℤ) ≤ cw - max 0 ⌊rx⌋ := by omega
    have h2 : min (cw - max 0 ⌊rx⌋) ⌊rw⌋ ≤ cw - max 0 ⌊rx⌋ := min_le_left _ _
    have h3 : max 1 (min (cw - max 0 ⌊rx⌋) ⌊rw⌋) ≤ cw - max 0 ⌊rx⌋ := max_le h1 h2
    omega
  · intro hy
    have h1 : (1 : ℤ) ≤ ch - max 0 ⌊ry⌋ := by omega
    have h2 : min (ch - max 0 ⌊ry⌋) ⌊rh⌋ ≤ ch - max 0 ⌊ry⌋ := min_le_left _ _
    have h3 : max 1 (min (ch - max 0 ⌊ry⌋) ⌊rh⌋) ≤ ch - max 0 ⌊ry⌋ := max_le h1 h2
    omega

/-- Witness for the amended claim C1 at the spec's example input. -/
theorem c1_clamped_region_invariants_witness :
    clampRegion 640 480 (-10) 500 100 50 = some ⟨0, 500, 100, 1⟩ ∧
    (0 ≤ (0 : ℤ) ∧ 0 ≤ (500 : ℤ) ∧ 1 ≤ (100 : ℤ) ∧ 1 ≤ (1 : ℤ) ∧
      ((0 : ℤ) < 640 → (0 : ℤ) + 100 ≤ 640) ∧ ((500 : ℤ) < 480 → (500 : ℤ) + 1 ≤ 480)) :=
  ⟨by decide, c1_clamped_region_invariants 640 480 (-10) 500 100 50 ⟨0, 500, 100, 1⟩ (by decide)⟩

/-- Claim C2: the code computes the raw origin from the bounding box's
*size* fractions (`rawX = box.width * canvas.width`,
`rawY = box.height * canvas.height`, lines 139-140), not from the
position fractions `xMin`/`yMin` as the spec prescribes: for the box
`(xMin = 1/10, yMin = 1/5, width = 1/2, height = 1/2)` on a 640×480
frame, the code yields origin `(320, 240)` while the spec's formula
yields `(64, 96)`. -/
theorem c2_raw_origin_from_size_fractions :
    (rawRect ⟨1/10, 1/5, 1/2, 1/2⟩ 640 480).1 = 320 ∧
    (rawRect ⟨1/10, 1/5, 1/2, 1/2⟩ 640 480).2.1 = 240 ∧
    (rawOriginSpec ⟨1/10, 1/5, 1/2, 1/2⟩ 640 480).1 = 64 ∧
    (rawOriginSpec ⟨1/10, 1/5, 1/2, 1/2⟩ 640 480).2 = 96 ∧
    (rawRect ⟨1/10, 1/5, 1/2, 1/2⟩ 640 480).1 ≠
      (rawOriginSpec ⟨1/10, 1/5, 1/2, 1/2⟩ 640 480).1 := by
  refine ⟨?_, ?_, ?_, ?_, ?_⟩ <;> norm_num [rawRect, rawOriginSpec]

/-- Claim C3: for every attempt below `maxReconnectAttempts`, the
scheduled reconnect delay equals `min(baseDelayMs * 2^attempt, maxDelayMs)`
with base 1000 and cap 10000; it never exceeds the cap and is
monotonically non-decreasing in the attempt number. -/
theorem c3_reconnect_delay_formula (a b : ℕ) (ha : a < maxReconnectAttempts) (hab : a ≤ b) :
    reconnectDelay a = min (baseReconnectDelay * 2 ^ a) 10000 ∧
    reconnectDelay a ≤ 10000 ∧
    reconnectDelay a ≤ reconnectDelay b := by
  refine ⟨rfl, min_le_right _ _, ?_⟩
  unfold reconnectDelay
  refine min_le_min ?_ le_rfl
  gcongr
  norm_num

/-- Witness for claim C3 at attempts 2 and 3. -/
theorem c3_reconnect_delay_formula_witness :
    reconnectDelay 2 = min (baseReconnectDelay * 2 ^ 2) 10000 ∧
    reconnectDelay 2 ≤ 10000 ∧
    reconnectDelay 2 ≤ reconnectDelay 3 :=
  c3_reconnect_delay_formula 2 3 (by decide) (by decide)

/-- Claim C4: after `maxReconnectAttempts = 5` consecutive closures with
no intervening successful open, the retry counter reaches 5, every
further closure leaves it at 5, and the close handler schedules no
further `connectWebSocket` call from that state. -/
theorem c4_terminal_after_exhaustion :
    attemptAfter (List.replicate maxReconnectAttempts CsmEvent.evClose) = maxReconnectAttempts ∧
    (∀ k : ℕ, (List.replicate k CsmEvent.evClose).foldl stepAttempt maxReconnectAttempts
        = maxReconnectAttempts) ∧
    oncloseSchedules maxReconnectAttempts = [] := by
  refine ⟨by decide, ?_, by decide⟩
  intro k
  induction k with
  | zero => rfl
  | succ n ih => rw [List.replicate_succ, List.foldl_cons]; exact ih

/-- Claim C5: the rate gate admits exactly when
`now - lastSendTime ≥ sendInterval`, updates `lastSendTime` to `now` on
admit and leaves it unchanged on deny; consequently, along any
non-decreasing sequence of attempt timestamps, consecutive admitted
timestamps are at least `sendInterval` apart. -/
theorem c5_rate_gate_contract (last now : ℤ) (ts : List ℤ)
    (hmono : List.Chain' (fun a b => a ≤ b) ts) :
    ((tryAdmit last now).1 = true ↔ sendInterval ≤ now - last) ∧
    ((tryAdmit last now).1 = true → (tryAdmit last now).2 = now) ∧
    ((tryAdmit last now).1 = false → (tryAdmit last now).2 = last) ∧
    List.Chain' (fun a b => sendInterval ≤ b - a) (admittedTimes last ts) := by
  refine ⟨?_, ?_, ?_, (admittedTimes_spacing ts last).1⟩
  · unfold tryAdmit; split <;> simp_all
  · unfold tryAdmit; split <;> simp_all
  · unfold tryAdmit; split <;> simp_all

/-- Witness for claim C5 on the attempt sequence `[100, 250, 400, 650]`
from `lastSendTime = 0`. -/
theorem c5_rate_gate_contract_witness :
    (tryAdmit 0 300).1 = true ∧ (tryAdmit 0 300).2 = 300 ∧
    List.Chain' (fun a b => sendInterval ≤ b - a) (admittedTimes 0 [100, 250, 400, 650]) := by
  have h := c5_rate_gate_contract 0 300 [100, 250, 400, 650]
    (by norm_num [List.chain'_cons])
  exact ⟨h.1.mpr (by decide), h.2.1 (h.1.mpr (by decide)), h.2.2.2⟩

/-- Claim C6: calling `connectWebSocket` while the socket is CONNECTING
or OPEN changes nothing: no new WebSocket is constructed and the retry
counter is untouched. -/
theorem c6_connect_idempotent (s : ClientState) (sk : Socket)
    (hs : s.socket = some sk)
    (hstate : sk.readyState = ReadyState.connecting ∨ sk.readyState = ReadyState.opened) :
    connectWebSocket s = s ∧
    (connectWebSocket s).socketsCreated = s.socketsCreated ∧
    (connectWebSocket s).reconnectAttempt = s.reconnectAttempt := by
  have h : connectWebSocket s = s := by
    unfold connectWebSocket
    rw [hs]
    simp [hstate]
  exact ⟨h, by rw [h], by rw [h]⟩

/-- Witness for claim C6 on an OPEN socket. -/
theorem c6_connect_idempotent_witness :
    connectWebSocket { initState with socket := some ⟨ReadyState.opened⟩ }
      = { initState with socket := some ⟨ReadyState.opened⟩ } :=
  (c6_connect_idempotent { initState with socket := some ⟨ReadyState.opened⟩ }
    ⟨ReadyState.opened⟩ rfl (Or.inr rfl)).1

/-- Claim C7: a send attempted while the socket is absent or not OPEN
(in particular while reconnecting) is rejected — the model returns the
`notOpen` outcome rather than raising — and `lastSendTime` is not
modified. -/
theorem c7_send_rejected_when_not_open (s : ClientState) (now : ℤ) (sendThrows : Bool)
    (h : ∀ sk, s.socket = some sk → sk.readyState ≠ ReadyState.opened) :
    (attemptSend s now sendThrows).2 = SendOutcome.notOpen ∧
    (attemptSend s now sendThrows).1.lastSendTime = s.lastSendTime := by
  unfold attemptSend
  cases hsk : s.socket with
  | none => exact ⟨rfl, connectWebSocket_lastSendTime s⟩
  | some sk =>
    have hno : sk.readyState ≠ ReadyState.opened := h sk hsk
    dsimp only
    rw [if_neg hno]
    by_cases hc : sk.readyState = ReadyState.closed
    · rw [if_pos hc]
      exact ⟨rfl, connectWebSocket_lastSendTime s⟩
    · rw [if_neg hc]
      exact ⟨rfl, rfl⟩

/-- Witness for claim C7 on a CLOSED socket mid-reconnect. -/
theorem c7_send_rejected_when_not_open_witness :
    (attemptSend { initState with socket := some ⟨ReadyState.closed⟩, lastSendTime := 42 }
        1000 false).2 = SendOutcome.notOpen ∧
    (attemptSend { initState with socket := some ⟨ReadyState.closed⟩, lastSendTime := 42 }
        1000 false).1.lastSendTime = 42 :=
  c7_send_rejected_when_not_open
    { initState with socket := some ⟨ReadyState.closed⟩, lastSendTime := 42 } 1000 false
    (fun sk hsk => by injection hsk with h2; rw [← h2]; decide)

/-- Claim C8: an inbound message whose payload fails to parse is
discarded: the whole client state — in particular `lastEmotion`
(DisplayState), the socket and the retry counter (ConnectionState) — is
unchanged. -/
theorem c8_malformed_message_ignored (s : ClientState) :
    onmessage s none = s ∧
    (onmessage s none).lastEmotion = s.lastEmotion ∧
    (onmessage s none).socket = s.socket ∧
    (onmessage s none).reconnectAttempt = s.reconnectAttempt :=
  ⟨rfl, rfl, rfl, rfl⟩

/-- Claim C10: every successfully parsed message whose `error` field is
absent or falsy overwrites `lastEmotion` with the formatted
`emotion (confidence%)` string, even when fields are missing; in
particular the empty message `{}` sets it to `"undefined (NaN%)"`. -/
theorem c10_display_overwritten_on_nonerror (s : ClientState) (m : InMsg)
    (herr : isTruthy m.error = false) :
    (onmessage s (some m)).lastEmotion = formatEmotion m ∧
    (onmessage s (some ⟨none, none, none⟩)).lastEmotion = "undefined (NaN%)" := by
  constructor
  · simp [onmessage, herr]
  · simp [onmessage, isTruthy]
    decide

/-- Witness for claim C10 at the empty message `{}`. -/
theorem c10_display_overwritten_witness :
    (onmessage initState (some ⟨none, none, none⟩)).lastEmotion = "undefined (NaN%)" :=
  (c10_display_overwritten_on_nonerror initState ⟨none, none, none⟩ (by decide)).2

/-- Claim C9: the clamp forces `w ≥ 1` and `h ≥ 1`, so the subsequent
degenerate-region check is unreachable: for every finite raw rectangle
the clamping step yields a region (never "no region"). -/
theorem c9_degenerate_check_unreachable (cw ch : ℤ) (rx ry rw rh : ℚ) :
    ∃ r : Region, clampRegion cw ch rx ry rw rh = some r ∧ 1 ≤ r.w ∧ 1 ≤ r.h := by
  exact ⟨⟨max 0 ⌊rx⌋, max 0 ⌊ry⌋,
          max 1 (min (cw - max 0 ⌊rx⌋) ⌊rw⌋),
          max 1 (min (ch - max 0 ⌊ry⌋) ⌊rh⌋)⟩,
         clampRegion_eq cw ch rx ry rw rh, le_max_left 1 _, le_max_left 1 _⟩

end EmotionClient
